import Mathlib

/-!
Verification of the Invoice_Generator repository (src/main.py, src/app.py).

Shallow embedding: Python numbers are modelled as rationals (ℚ), Python
lists as Lean lists, optional dataclass fields (`List[str] = None`) as
`Option`.  Pure functions of `main.py` (`Item.price_cal`,
`calculate_subtotal`, `apply_discount`, `apply_tax`,
`Invoice.set_tax_rate`, and `generate_pdf`'s inner `format_currency` and
item-table construction) are embedded directly; the request-handler logic
of `app.py` (`create_invoice`'s charge-list padding and item construction,
and the `float(...)` conversion applied to `tax_rate`) is embedded as
explicit functions over a small Python-value type.
-/

namespace InvoiceGen

/-- `Client` dataclass (main.py lines 9-14).  `contact: Optional[int]`. -/
structure Client where
  name : String
  email : String
  address : String
  contact : Option Int := none
deriving DecidableEq, Repr

/-- `Item` dataclass (main.py lines 16-22).  The two charge lists default to
`None` in the source, hence `Option`.  `qty` and `price` are declared
`float` in the source and modelled as ℚ. -/
structure Item where
  name : String
  qty : ℚ
  price : ℚ
  charge_types : Option (List String) := none
  charge_amounts : Option (List ℚ) := none
deriving DecidableEq, Repr

/-- `Item.price_cal` (main.py lines 24-27):
`base = self.qty * self.price; extras = sum(self.charge_amounts or []);
return base + extras`.  `x or []` yields `[]` when `x` is `None` (and also
when it is the empty list, on which `sum` is 0 as well). -/
def Item.price_cal (i : Item) : ℚ :=
  i.qty * i.price + (i.charge_amounts.getD []).sum

/-- The mutable state of the `Invoice` class (main.py lines 29-37).
The wall-clock `invoice_date` and the `id(self)`-derived `invoice_number`
are not modelled: no claim depends on them. -/
structure Invoice where
  client : Client
  items : List Item := []
  tax_rate : ℚ := 0
  discount : ℚ := 0
  discount_type : String := "flat"
deriving DecidableEq, Repr

/-- `Invoice.add_item` (main.py lines 39-40): appends to the item list. -/
def Invoice.add_item (inv : Invoice) (i : Item) : Invoice :=
  { inv with items := inv.items ++ [i] }

/-- `Invoice.set_tax_rate` (main.py lines 42-43): `self.tax_rate = rate`,
an unconditional overwrite with no validation of any kind. -/
def Invoice.set_tax_rate (inv : Invoice) (rate : ℚ) : Invoice :=
  { inv with tax_rate := rate }

/-- `Invoice.set_discount` (main.py lines 45-47). -/
def Invoice.set_discount (inv : Invoice) (amount : ℚ) (dt : String) : Invoice :=
  { inv with discount := amount, discount_type := dt }

/-- `calculate_subtotal` (main.py lines 49-50):
`sum(item.price_cal() for item in items)`. -/
def calculate_subtotal (items : List Item) : ℚ :=
  (items.map Item.price_cal).sum

/-- `apply_discount` (main.py lines 52-53):
`subtotal * (1 - discount) if discount_type == 'percentage' else subtotal - discount`. -/
def apply_discount (subtotal discount : ℚ) (discount_type : String) : ℚ :=
  if discount_type = "percentage" then subtotal * (1 - discount)
  else subtotal - discount

/-- `apply_tax` (main.py lines 55-56): `amount * (1 + tax_rate)`. -/
def apply_tax (amount tax_rate : ℚ) : ℚ :=
  amount * (1 + tax_rate)

/-! ### The `{:,.2f}` format specifier

`format_currency` (main.py lines 72-76) renders `f"...{amount:,.2f}"`:
round to two decimal places (Python formats the float's exact value with
round-half-to-even), group the integer digits in threes with commas, and
always print exactly two fractional digits. -/

/-- Round a rational to the nearest integer, ties to the even integer
(the rounding Python applies when formatting with `.2f`). -/
def roundHalfEven (q : ℚ) : ℤ :=
  if q - (⌊q⌋ : ℚ) < 1/2 then ⌊q⌋
  else if (1:ℚ)/2 < q - (⌊q⌋ : ℚ) then ⌊q⌋ + 1
  else if ⌊q⌋ % 2 = 0 then ⌊q⌋ else ⌊q⌋ + 1

/-- Decimal digit characters of a natural number, most significant first. -/
def natDecimalDigits (n : Nat) : List Char :=
  Nat.toDigits 10 n

/-- Insert a comma after every third character of a reversed digit list
(thousands grouping, working from the least significant digit).  The fuel
argument—instantiated with the list length, which strictly bounds the
number of chunks—makes the recursion structural. -/
def commasRevFuel : Nat → List Char → List Char
  | 0, l => l
  | fuel + 1, l =>
    if l.length ≤ 3 then l
    else l.take 3 ++ ',' :: commasRevFuel fuel (l.drop 3)

/-- Thousands grouping of a reversed digit list. -/
def commasRev (l : List Char) : List Char :=
  commasRevFuel l.length l

/-- Integer part with thousands separators, e.g. `1234 ↦ "1,234"`. -/
def groupedNat (n : Nat) : String :=
  String.mk (commasRev (natDecimalDigits n).reverse).reverse

/-- Two-digit rendering of a number of cents below 100, e.g. `5 ↦ "05"`. -/
def twoDigits (n : Nat) : String :=
  String.mk [Char.ofNat (48 + n / 10 % 10), Char.ofNat (48 + n % 10)]

/-- Render a signed number of cents as a decimal string with thousands
separators and exactly two fractional digits. -/
def centsRender (cents : ℤ) : String :=
  (if cents < 0 then "-" else "")
    ++ groupedNat (cents.natAbs / 100) ++ "." ++ twoDigits (cents.natAbs % 100)

/-- Python `format(amount, ",.2f")` on a rational amount. -/
def pyFormatComma2 (amount : ℚ) : String :=
  centsRender (roundHalfEven (amount * 100))

/-- The literal string prefix on main.py line 74.  The source file's bytes
there are `C3 A2  E2 80 9A  C2 B9`: the three characters U+00E2, U+201A,
U+00B9 (a mojibake of the UTF-8 encoding of U+20B9 re-decoded as cp1252),
not the single rupee sign U+20B9. -/
def inrGlyphInSource : String :=
  String.mk [Char.ofNat 0xE2, Char.ofNat 0x201A, Char.ofNat 0xB9]

/-- The rupee sign U+20B9, the glyph the spec names for `INR`. -/
def rupeeSign : String :=
  String.mk [Char.ofNat 0x20B9]

/-- `format_currency` (main.py lines 72-76), closed over the `currency`
argument of `generate_pdf`:
`if currency == 'INR': return f"<glyph>{amount:,.2f}" else: return f"${amount:,.2f}"`
where `<glyph>` is the byte sequence actually present on line 74
(`inrGlyphInSource`). -/
def format_currency (currency : String) (amount : ℚ) : String :=
  if currency = "INR" then inrGlyphInSource ++ pyFormatComma2 amount
  else "$" ++ pyFormatComma2 amount

/-! ### Item-table construction (`generate_pdf`, main.py lines 128-151) -/

/-- One row of the rendered line-item table.  The five styled cell
paragraphs of a row are abstracted to the row's provenance — which is what
the row-count and ordering claims are about: the header row built on lines
129-136, one row per invoice item built by the `for` loop on lines
137-146 (in list order), and the blank rows appended by the
`while len(item_data) < 7` loop on lines 147-148. -/
inductive Row where
  | header : Row
  | item : Item → Row
  | blank : Row
deriving DecidableEq

/-- main.py lines 136-146: `item_data = [table_headers]` followed by one
appended row per item of `invoice.items`, in order. -/
def item_data (inv : Invoice) : List Row :=
  Row.header :: inv.items.map Row.item

/-- main.py lines 147-148:
`while len(item_data) < 7: item_data.append([blank cells])`. -/
def padToSeven (l : List Row) : List Row :=
  if _h : l.length < 7 then padToSeven (l ++ [Row.blank]) else l
termination_by 7 - l.length
decreasing_by simp; omega

/-- The rows of the item table as `generate_pdf` finally builds it. -/
def paddedItemData (inv : Invoice) : List Row :=
  padToSeven (item_data inv)

/-! ### The HTTP handler (`create_invoice`, app.py lines 14-68) -/

/-- A JSON-decoded Python value, covering the shapes a payload field can
take.  JSON numbers are exact decimals, modelled as ℚ. -/
inductive PyVal where
  | num : ℚ → PyVal
  | bool : Bool → PyVal
  | str : String → PyVal
  | null : PyVal
  | list : List PyVal → PyVal

/-- Numeric value of a string of decimal digits (most significant first);
`none` if any character is not a digit. -/
def digitsVal (cs : List Char) : Option Nat :=
  if cs.all Char.isDigit then
    some (cs.foldl (fun a c => 10 * a + (c.toNat - 48)) 0)
  else none

/-- Modelled from Python's built-in `float()` applied to a string: an
optional sign, integer digits, an optional fractional part, with at least
one digit overall ("1.", ".5", "07" accepted; "", ".", "abc" rejected).
Exponent notation, inf/nan and surrounding whitespace are not modelled —
no claim involves them. -/
def parseDecimal (s : String) : Option ℚ :=
  let sg : ℚ := match s.data with | '-' :: _ => -1 | _ => 1
  let body : List Char :=
    match s.data with
    | '-' :: t => t
    | '+' :: t => t
    | t => t
  let ip := body.takeWhile Char.isDigit
  match body.dropWhile Char.isDigit with
  | [] =>
    if ip.isEmpty then none
    else (digitsVal ip).map (fun n => sg * (n : ℚ))
  | '.' :: fp =>
    if ip.isEmpty && fp.isEmpty then none
    else
      match digitsVal ip, digitsVal fp with
      | some a, some b => some (sg * ((a : ℚ) + (b : ℚ) / (10 : ℚ) ^ fp.length))
      | _, _ => none
  | _ => none

/-- Python `float(v)` on a JSON-decoded value: numbers pass through, bools
coerce to 0/1 (Python bools are ints), strings are parsed (`ValueError` on
failure), and null/arrays raise `TypeError`. -/
def pyFloat : PyVal → Except String ℚ
  | .num q => .ok q
  | .bool b => .ok (if b then 1 else 0)
  | .str s =>
    match parseDecimal s with
    | some q => .ok q
    | none => .error "ValueError: could not convert string to float"
  | .null => .error "TypeError: float() argument must be a string or a real number"
  | .list _ => .error "TypeError: float() argument must be a string or a real number"

/-- A payload value is numeric when it is a number, a bool, or a string
spelling a decimal number — exactly the values `float()` accepts. -/
def isNumericValue : PyVal → Bool
  | .num _ => true
  | .bool _ => true
  | .str s => (parseDecimal s).isSome
  | .null => false
  | .list _ => false

/-- Did an `Except` computation fail? -/
def isError {ε α : Type} : Except ε α → Bool
  | .error _ => true
  | .ok _ => false

/-- app.py lines 54-55: `invoice.set_tax_rate(float(data['tax_rate']))`,
with the `float` conversion made explicit; a conversion failure aborts
the request (the spec's `ValidationError`). -/
def handler_set_tax_rate (inv : Invoice) (v : PyVal) : Except String Invoice :=
  match pyFloat v with
  | .ok r => .ok (inv.set_tax_rate r)
  | .error e => .error e

/-- One element of the request payload's `items` array (app.py lines
39-51) after JSON decoding, with `charge_types`/`charge_amounts` already
defaulted to `[]` by `.get(..., [])` (lines 40-41).  `quantity` may be
fractional — the payload schema declares it a number. -/
structure ItemPayload where
  name : String
  quantity : ℚ
  price : ℚ
  charge_types : List String := []
  charge_amounts : List ℚ := []

/-- app.py lines 42-44: pad both charge lists to the length of the longer
one, missing labels with `''` and missing amounts with `0.0`. -/
def padCharges (charge_types : List String) (charge_amounts : List ℚ) :
    List String × List ℚ :=
  let max_len := max charge_types.length charge_amounts.length
  (charge_types ++ List.replicate (max_len - charge_types.length) "",
   charge_amounts ++ List.replicate (max_len - charge_amounts.length) 0)

/-- Python `int()` applied to a float: truncation toward zero. -/
def pyInt (q : ℚ) : ℤ :=
  if 0 ≤ q then ⌊q⌋ else ⌈q⌉

/-- app.py lines 45-51: the `Item` constructed for one payload entry, with
`qty=int(item_data['quantity'])` and the padded charge lists. -/
def buildItem (p : ItemPayload) : Item :=
  { name := p.name
    qty := (pyInt p.quantity : ℚ)
    price := p.price
    charge_types := some (padCharges p.charge_types p.charge_amounts).1
    charge_amounts := some (padCharges p.charge_types p.charge_amounts).2 }

/-! ## Theorems -/

/-- Closed form of the padding loop, by induction on the remaining fuel
`7 - l.length`. -/
theorem padToSeven_closed_form_aux :
    ∀ (k : Nat) (l : List Row), 7 - l.length ≤ k →
      padToSeven l = l ++ List.replicate (7 - l.length) Row.blank := by
  intro k
  induction k with
  | zero =>
    intro l h
    rw [padToSeven]
    have hge : ¬ l.length < 7 := by omega
    have h0 : 7 - l.length = 0 := by omega
    simp [hge, h0]
  | succ k ih =>
    intro l h
    rw [padToSeven]
    split
    · next hlt =>
      rw [ih (l ++ [Row.blank]) (by simp; omega)]
      have : 7 - l.length = (7 - (l.length + 1)) + 1 := by omega
      simp [this, List.append_assoc, List.replicate_succ]
    · next hge =>
      have h0 : 7 - l.length = 0 := by omega
      simp [h0]

/-- The `while len(item_data) < 7` loop appends exactly enough blank rows
to reach length 7, and nothing when the list is already that long. -/
theorem padToSeven_closed_form (l : List Row) :
    padToSeven l = l ++ List.replicate (7 - l.length) Row.blank :=
  padToSeven_closed_form_aux (7 - l.length) l le_rfl

/-- C1: the claim says formatting 1234.5 under 'INR' yields "₹1,234.50".
The code disagrees at that very input: main.py line 74's prefix literal is
the three-character mojibake "â‚¹" (`inrGlyphInSource`), not the rupee
sign U+20B9 (`rupeeSign`), so the result is "â‚¹1,234.50".  The dollar
fallback half of the claim does hold: 'XYZ' yields "$1,234.50". -/
theorem C1_format_currency_inr_mojibake :
    format_currency "INR" (2469/2) = inrGlyphInSource ++ "1,234.50"
    ∧ format_currency "INR" (2469/2) ≠ rupeeSign ++ "1,234.50"
    ∧ format_currency "XYZ" (2469/2) = "$1,234.50" := by
  have h : roundHalfEven ((2469:ℚ)/2 * 100) = 123450 := by
    have e : ((2469:ℚ)/2 * 100) = ((123450:ℤ):ℚ) := by norm_num
    rw [e]; simp [roundHalfEven]
  refine ⟨?_, ?_, ?_⟩ <;>
    · unfold format_currency pyFormatComma2
      rw [h]
      decide

/-- C2: `apply_discount` returns `subtotal * (1 - d)` exactly when the
type string is "percentage" and `subtotal - d` for every other string
(unrecognized types fall back to flat behavior, not rejection), and the
flat result is not clamped — it can be negative. -/
theorem C2_apply_discount_flat_fallback :
    (∀ s d : ℚ, apply_discount s d "percentage" = s * (1 - d))
    ∧ (∀ (s d : ℚ) (t : String), t ≠ "percentage" → apply_discount s d t = s - d)
    ∧ apply_discount 0 5 "gibberish" = -5
    ∧ apply_discount 0 5 "gibberish" < 0 := by
  refine ⟨fun s d => by simp [apply_discount],
          fun s d t h => by simp [apply_discount, h],
          ?_, ?_⟩ <;>
    · simp only [apply_discount, if_neg (show ¬ ("gibberish" = "percentage") by decide)]
      norm_num

/-- C2 witness: the flat branch at subtotal 20, discount 5, type "flat". -/
theorem C2_apply_discount_flat_fallback_witness :
    apply_discount 20 5 "flat" = 20 - 5 :=
  C2_apply_discount_flat_fallback.2.1 20 5 "flat" (by decide)

/-- C3: `apply_tax` returns `discounted * (1 + tax_rate)` for every
nonnegative rate, and the scenario invoice (one item qty 2 price 10, no
extra charges, tax_rate 0.1, discount 0) has subtotal 20 and total 22,
computed through the same pipeline as `generate_pdf` lines 163-165. -/
theorem C3_apply_tax_spec :
    (∀ amount rate : ℚ, 0 ≤ rate → apply_tax amount rate = amount * (1 + rate))
    ∧ (∀ c : Client,
        let inv : Invoice := { client := c,
                               items := [{ name := "x", qty := 2, price := 10 }],
                               tax_rate := 1/10 }
        calculate_subtotal inv.items = 20
        ∧ apply_tax (apply_discount (calculate_subtotal inv.items)
            inv.discount inv.discount_type) inv.tax_rate = 22) := by
  refine ⟨fun a r _ => rfl, fun c => ⟨?_, ?_⟩⟩
  · norm_num [calculate_subtotal, Item.price_cal]
  · simp only [apply_tax, apply_discount,
      if_neg (show ¬ ("flat" = "percentage") by decide)]
    norm_num [calculate_subtotal, Item.price_cal]

/-- C3 witness: the tax multiplication at amount 20, rate 1/10. -/
theorem C3_apply_tax_spec_witness :
    apply_tax 20 (1/10) = 20 * (1 + 1/10) :=
  C3_apply_tax_spec.1 20 (1/10) (by norm_num)

/-- C4: for nonnegative quantity and price, an item's line total is
`qty * price` plus the sum of its charge amounts; in particular with
`charge_amounts = [5]` it is `qty * price + 5`. -/
theorem C4_line_total_spec :
    (∀ i : Item, 0 ≤ i.qty → 0 ≤ i.price →
      i.price_cal = i.qty * i.price + (i.charge_amounts.getD []).sum)
    ∧ (∀ (nm : String) (q p : ℚ) (ts : Option (List String)), 0 ≤ q → 0 ≤ p →
      (Item.mk nm q p ts (some [5])).price_cal = q * p + 5) := by
  refine ⟨fun i _ _ => rfl, fun nm q p ts _ _ => by simp [Item.price_cal]⟩

/-- C4 witness: the charged item at qty 2, price 10. -/
theorem C4_line_total_spec_witness :
    (Item.mk "a" 2 10 none (some [5])).price_cal = 2 * 10 + 5 :=
  C4_line_total_spec.2 "a" 2 10 none (by norm_num) (by norm_num)

/-- C5: `calculate_subtotal` is the sum of the items' line totals, and is
invariant under permutation of the item list. -/
theorem C5_subtotal_perm_invariant :
    (∀ items : List Item, calculate_subtotal items = (items.map Item.price_cal).sum)
    ∧ (∀ l₁ l₂ : List Item, l₁.Perm l₂ → calculate_subtotal l₁ = calculate_subtotal l₂) := by
  refine ⟨fun _ => rfl, fun l₁ l₂ h => ?_⟩
  simpa [calculate_subtotal] using (h.map Item.price_cal).sum_eq

/-- C5 witness: swapping two concrete items leaves the subtotal unchanged. -/
theorem C5_subtotal_perm_invariant_witness :
    calculate_subtotal [Item.mk "a" 1 2 none none, Item.mk "b" 3 4 none none]
      = calculate_subtotal [Item.mk "b" 3 4 none none, Item.mk "a" 1 2 none none] :=
  C5_subtotal_perm_invariant.2 _ _ (List.Perm.swap _ _ _)

/-- C6: `set_tax_rate` overwrites the tax rate with any rational value,
with no bounds validation, and the handler's tax-rate path (the `float`
conversion of app.py line 55 followed by the overwrite) fails exactly on
payload values that are not numeric. -/
theorem C6_set_tax_rate_validation :
    (∀ (inv : Invoice) (r : ℚ), inv.set_tax_rate r = { inv with tax_rate := r })
    ∧ (∀ (inv : Invoice) (r : ℚ),
        handler_set_tax_rate inv (.num r) = .ok { inv with tax_rate := r })
    ∧ (∀ (inv : Invoice) (v : PyVal),
        isError (handler_set_tax_rate inv v) = true ↔ isNumericValue v = false) := by
  refine ⟨fun inv r => rfl, fun inv r => rfl, fun inv v => ?_⟩
  cases v with
  | num q => simp [handler_set_tax_rate, pyFloat, isError, isNumericValue]
  | bool b => simp [handler_set_tax_rate, pyFloat, isError, isNumericValue]
  | str s =>
    cases h : parseDecimal s <;>
      simp [handler_set_tax_rate, pyFloat, isError, isNumericValue, h]
  | null => simp [handler_set_tax_rate, pyFloat, isError, isNumericValue]
  | list l => simp [handler_set_tax_rate, pyFloat, isError, isNumericValue]

/-- C7: the rendered line-item table has `max 7 (n + 1)` rows for `n`
items: the header row, then every item in insertion order (no
truncation), then blank rows padding the table to at least 7 rows. -/
theorem C7_item_table_row_count (inv : Invoice) :
    paddedItemData inv
      = (Row.header :: inv.items.map Row.item)
          ++ List.replicate (7 - (inv.items.length + 1)) Row.blank
    ∧ (paddedItemData inv).length = max 7 (inv.items.length + 1) := by
  constructor
  · rw [paddedItemData, padToSeven_closed_form]
    simp [item_data]
  · rw [paddedItemData, padToSeven_closed_form]
    simp [item_data]
    omega

/-- C8: the handler pads `charge_types` and `charge_amounts` to the
length of the longer list before building the `Item`, labels with the
empty string and amounts with 0; 3 types with 1 amount become two
length-3 lists with the two missing amounts 0. -/
theorem C8_charge_padding :
    (∀ (ts : List String) (amts : List ℚ),
      (padCharges ts amts).1.length = max ts.length amts.length
      ∧ (padCharges ts amts).2.length = max ts.length amts.length
      ∧ (padCharges ts amts).1
          = ts ++ List.replicate (max ts.length amts.length - ts.length) ""
      ∧ (padCharges ts amts).2
          = amts ++ List.replicate (max ts.length amts.length - amts.length) 0)
    ∧ padCharges ["a", "b", "c"] [5] = (["a", "b", "c"], [5, 0, 0]) := by
  refine ⟨fun ts amts => ⟨?_, ?_, rfl, rfl⟩, ?_⟩
  · simp [padCharges]
  · simp [padCharges]
  · simp [padCharges]

/-- C9: the handler truncates each payload quantity to an integer
(`int(item_data['quantity'])`, toward zero) before building the `Item`,
so quantity 2.5 contributes qty 2 to the line total even though the data
model allows fractional quantities. -/
theorem C9_quantity_truncation :
    (∀ p : ItemPayload, (buildItem p).qty = (pyInt p.quantity : ℚ))
    ∧ pyInt (5/2) = 2
    ∧ (buildItem { name := "x", quantity := 5/2, price := 10 }).price_cal = 2 * 10 := by
  refine ⟨fun p => rfl, ?_, ?_⟩
  · norm_num [pyInt]
  · simp [buildItem, Item.price_cal, padCharges]
    norm_num [pyInt]

/-- C10: `price_cal` is total when `charge_amounts` is `None`: the missing
sequence is treated as empty (`self.charge_amounts or []`), so the result
is `qty * price` rather than a failure. -/
theorem C10_price_cal_none_safe (i : Item) (h : i.charge_amounts = none) :
    i.price_cal = i.qty * i.price := by
  simp [Item.price_cal, h]

/-- C10 witness: a concrete item with `charge_amounts = none`. -/
theorem C10_price_cal_none_safe_witness :
    (Item.mk "a" 2 10 none none).price_cal = (Item.mk "a" 2 10 none none).qty
      * (Item.mk "a" 2 10 none none).price :=
  C10_price_cal_none_safe (Item.mk "a" 2 10 none none) rfl

end InvoiceGen
